import Mathlib

/-!
Verification of the response-shaping logic of the Hugging Face image-to-text
service (`src/main.py`, class `MyService`).

The embedding models decoded Python JSON values as the inductive `Json`.
A `Json.obj` field list represents a decoded Python `dict` produced by
`json.loads`: keys are distinct and listed in insertion order (Python dicts
deduplicate keys, keeping the last value, before any of the modelled code
sees them).  Raw byte blobs are represented by the result of attempting to
parse them: an `Option Json` that is `none` exactly when `json.loads` (or
UTF-8 decoding) would fail.  Python's numeric cross-type equality
(`True == 1`) is not modelled; every key exercised by the claims is a
string, where `jeq` agrees with Python `==`.
-/

/-- A decoded JSON value, as produced by Python's `json.loads`. -/
inductive Json where
  | null
  | bool (b : Bool)
  | num (n : Int)
  | str (s : String)
  | arr (items : List Json)
  | obj (fields : List (String × Json))

mutual

/-- Python `==` on decoded JSON values (structural equality). -/
def jeq : Json → Json → Bool
  | Json.null, Json.null => true
  | Json.bool a, Json.bool b => a == b
  | Json.num a, Json.num b => a == b
  | Json.str a, Json.str b => a == b
  | Json.arr xs, Json.arr ys => jeqList xs ys
  | Json.obj xs, Json.obj ys => jeqFields xs ys
  | _, _ => false
termination_by structural j => j

/-- Python `==` on decoded JSON lists, element by element. -/
def jeqList : List Json → List Json → Bool
  | [], [] => true
  | x :: xs, y :: ys => jeq x y && jeqList xs ys
  | _, _ => false
termination_by structural l => l

/-- Python `==` on decoded JSON dicts, field by field. -/
def jeqFields : List (String × Json) → List (String × Json) → Bool
  | [], [] => true
  | (k, v) :: xs, (k2, v2) :: ys => k == k2 && jeq v v2 && jeqFields xs ys
  | _, _ => false
termination_by structural l => l

end

/-- Key lookup in a decoded Python dict (`d[k]` on the happy path). -/
def lookupField : List (String × Json) → String → Option Json
  | [], _ => none
  | (k, v) :: rest, s => if k == s then some v else lookupField rest s

/-- Key membership in a decoded Python dict (`k in d`). -/
def hasField : List (String × Json) → String → Bool
  | [], _ => false
  | (k, _) :: rest, s => k == s || hasField rest s

/-- Whether a decoded value is a Python dict (a JSON object). -/
def isObj : Json → Bool
  | Json.obj _ => true
  | _ => false

/-- Whether every element of a list of decoded values is a JSON object. -/
def allObjs (l : List Json) : Bool := l.all isObj

/-- `flatten_list` from `src/main.py` lines 96-103: splice list elements in
place, one level deep; non-list elements pass through. -/
def flatten_list : List Json → List Json
  | [] => []
  | Json.arr xs :: rest => xs ++ flatten_list rest
  | x :: rest => x :: flatten_list rest

/-- Hexadecimal digit (lowercase), as used by Python's `json` escaping. -/
def hexDigit (n : Nat) : Char :=
  if n < 10 then Char.ofNat (48 + n) else Char.ofNat (87 + n)

/-- Four-digit lowercase hexadecimal rendering of a code unit. -/
def hex4 (n : Nat) : String :=
  String.mk [hexDigit (n / 4096 % 16), hexDigit (n / 256 % 16),
             hexDigit (n / 16 % 16), hexDigit (n % 16)]

/-- Escape one character the way `json.dumps` (with its default
`ensure_ascii=True`) renders characters inside a string literal: the two-letter
escapes, `\uXXXX` for other characters outside `0x20`-`0x7e`, surrogate pairs
beyond the BMP, and the character itself otherwise. -/
def escapeJsonChar (c : Char) : String :=
  if c = '"' then "\\\""
  else if c = '\\' then "\\\\"
  else if c = '\n' then "\\n"
  else if c = '\t' then "\\t"
  else if c = '\r' then "\\r"
  else if c.toNat = 8 then "\\b"
  else if c.toNat = 12 then "\\f"
  else if c.toNat < 32 ∨ c.toNat > 126 then
    if c.toNat ≤ 65535 then "\\u" ++ hex4 c.toNat
    else
      "\\u" ++ hex4 (55296 + (c.toNat - 65536) / 1024) ++
      "\\u" ++ hex4 (56320 + (c.toNat - 65536) % 1024)
  else String.singleton c

/-- Render a string as a JSON string literal, as `json.dumps` does. -/
def quoteJsonString (s : String) : String :=
  "\"" ++ String.join (s.toList.map escapeJsonChar) ++ "\""

/-- Indentation prefixed to a line at nesting level `lvl` by
`json.dumps(..., indent=4)`. -/
def pad (lvl : Nat) : String := String.join (List.replicate lvl "    ")

mutual

/-- `json.dumps(value, indent=4)` on a decoded JSON value, parameterised by the
current nesting level.  Containers open their bracket on the current line, list
items and `"key": value` pairs each sit on their own line indented one level
deeper, separated by `,`, and the closing bracket is indented at the outer
level; empty containers render inline. -/
def dumpsVal : Json → Nat → String
  | Json.null, _ => "null"
  | Json.bool b, _ => if b then "true" else "false"
  | Json.num n, _ => toString n
  | Json.str s, _ => quoteJsonString s
  | Json.arr items, lvl =>
      if items.isEmpty then "[]"
      else "[\n" ++ dumpsItems items (lvl + 1) ++ "\n" ++ pad lvl ++ "]"
  | Json.obj fields, lvl =>
      if fields.isEmpty then "\x7b\x7d"
      else "\x7b\n" ++ dumpsFields fields (lvl + 1) ++ "\n" ++ pad lvl ++ "\x7d"
termination_by structural j => j

/-- The item lines of a pretty-printed JSON list, `,`-and-newline separated. -/
def dumpsItems : List Json → Nat → String
  | [], _ => ""
  | x :: rest, lvl =>
      pad lvl ++ dumpsVal x lvl ++ (if rest.isEmpty then "" else ",\n") ++
      dumpsItems rest lvl
termination_by structural l => l

/-- The `"key": value` lines of a pretty-printed JSON object. -/
def dumpsFields : List (String × Json) → Nat → String
  | [], _ => ""
  | (k, v) :: rest, lvl =>
      pad lvl ++ quoteJsonString k ++ ": " ++ dumpsVal v lvl ++
      (if rest.isEmpty then "" else ",\n") ++ dumpsFields rest lvl
termination_by structural l => l

end

/-- `json.dumps(value, indent=4)` as called in `src/main.py` lines 117 and 125. -/
def dumps (j : Json) : String := dumpsVal j 0

/-- Failure modes of one `process` invocation.  `invalidDescriptor` is the
`Exception` raised by the two `except` arms at `src/main.py` lines 89-92;
`remoteError` is the `raise Exception(data['error'])` at line 115;
`keyError` is an uncaught Python `KeyError` (the spec's `MissingFieldError`);
`typeError` and `indexError` are uncaught Python `TypeError`/`IndexError`;
`jsonDecodeError` is the error `response.json()` raises on a non-JSON body. -/
inductive Err where
  | invalidDescriptor (msg : String)
  | remoteError (v : Json)
  | keyError (k : Json)
  | typeError (msg : String)
  | indexError
  | jsonDecodeError

/-- A Python value flowing into the returned `TaskData`: either a `str`
(produced by `json.dumps`) or a non-string decoded JSON value (produced by
the raw extraction `result_data.json()[desired_output]`). -/
inductive PyVal where
  | str (s : String)
  | json (j : Json)

/-- View a decoded JSON value as the Python value it is: a decoded JSON string
is exactly a Python `str`, any other value stays structured. -/
def toPyVal : Json → PyVal
  | Json.str s => PyVal.str s
  | v => PyVal.json v

/-- The content types named by the service (`FieldDescriptionType` members the
source uses). -/
inductive FieldDescriptionType where
  | APPLICATION_JSON
  | IMAGE_JPEG
  | IMAGE_PNG

/-- `TaskData(data=..., type=...)` as constructed at `src/main.py` line 130. -/
structure TaskData where
  data : PyVal
  type : FieldDescriptionType

/-- The dictionary `{"result": TaskData(...)}` returned by `process`. -/
structure ResultDict where
  result : TaskData

/-- Whether `chars` begins with `needle` (character-by-character). -/
def charsStartWith : List Char → List Char → Bool
  | _, [] => true
  | [], _ :: _ => false
  | c :: cs, d :: ds => c == d && charsStartWith cs ds

/-- Whether `needle` occurs contiguously inside `hay`. -/
def charsContain : List Char → List Char → Bool
  | [], needle => needle.isEmpty
  | c :: cs, needle => charsStartWith (c :: cs) needle || charsContain cs needle

/-- Python's substring test `needle in hay` on strings. -/
def strContains (hay needle : String) : Bool :=
  charsContain hay.toList needle.toList

/-- Python's membership test `needle in v` on a decoded JSON value: key lookup
on dicts (unhashable needles raise `TypeError`; hashable non-string needles
never match the string keys), `==`-scan on lists, substring test on strings,
and `TypeError` on non-iterable values. -/
def pyContains (v needle : Json) : Except Err Bool :=
  match v with
  | Json.obj fields =>
      match needle with
      | Json.str s => Except.ok (hasField fields s)
      | Json.arr _ => Except.error (Err.typeError "unhashable type")
      | Json.obj _ => Except.error (Err.typeError "unhashable type")
      | _ => Except.ok false
  | Json.arr xs => Except.ok (xs.any (fun e => jeq needle e))
  | Json.str s =>
      match needle with
      | Json.str t => Except.ok (strContains s t)
      | _ => Except.error (Err.typeError "in <string> requires string as left operand")
  | _ => Except.error (Err.typeError "argument is not iterable")

/-- Python's subscription `v[key]` on a decoded JSON value: dict lookup
(`KeyError` when absent, `TypeError` on unhashable keys), integer indexing with
negative-index wrap-around on lists and strings (`TypeError` on non-integer
keys), and `TypeError` on non-subscriptable values. -/
def pyGetItem (v key : Json) : Except Err Json :=
  match v with
  | Json.obj fields =>
      match key with
      | Json.str s =>
          match lookupField fields s with
          | some w => Except.ok w
          | none => Except.error (Err.keyError key)
      | Json.arr _ => Except.error (Err.typeError "unhashable type")
      | Json.obj _ => Except.error (Err.typeError "unhashable type")
      | _ => Except.error (Err.keyError key)
  | Json.arr xs =>
      match key with
      | Json.num n =>
          let idx : Int := if n < 0 then n + xs.length else n
          if 0 ≤ idx then
            match xs.get? idx.toNat with
            | some w => Except.ok w
            | none => Except.error Err.indexError
          else Except.error Err.indexError
      | _ => Except.error (Err.typeError "list indices must be integers")
  | Json.str s =>
      match key with
      | Json.num n =>
          let idx : Int := if n < 0 then n + s.length else n
          if 0 ≤ idx then
            match s.toList.get? idx.toNat with
            | some c => Except.ok (Json.str (String.singleton c))
            | none => Except.error Err.indexError
          else Except.error Err.indexError
      | _ => Except.error (Err.typeError "string indices must be integers")
  | _ => Except.error (Err.typeError "object is not subscriptable")

/-- The string under which a decoded value serves as a key of the dict literal
`{desired_output: ...}` once that dict reaches `json.dumps`: strings pass
through, numbers/booleans/null take their JSON spelling, and unhashable values
(lists, dicts) raise `TypeError` already at dict construction. -/
def pyDictKey : Json → Except Err String
  | Json.str s => Except.ok s
  | Json.num n => Except.ok (toString n)
  | Json.bool true => Except.ok "true"
  | Json.bool false => Except.ok "false"
  | Json.null => Except.ok "null"
  | _ => Except.error (Err.typeError "unhashable type")

/-- `is_valid_json` from `src/main.py` lines 78-83, over a body represented by
its parse result: `json.loads` succeeds exactly when the body is valid JSON. -/
def is_valid_json : Option Json → Bool
  | some _ => true
  | none => false

/-- Lines 86-92 of `src/main.py`: decode and parse `json_description` (a blob
that fails UTF-8 decoding or JSON parsing is represented by `none` and turns
into the "json_description is invalid" failure), then look up `api_token` and
`api_url`, turning a `KeyError` into the "missing" failure.  A `TypeError`
from subscripting a non-dict propagates uncaught. -/
def parseDescriptor (blob : Option Json) : Except Err Json :=
  match blob with
  | none => Except.error (Err.invalidDescriptor "json_description is invalid")
  | some jd =>
    match pyGetItem jd (Json.str "api_token") with
    | Except.error (Err.keyError _) =>
        Except.error (Err.invalidDescriptor "api_url or api_token missing from json_description")
    | Except.error e => Except.error e
    | Except.ok _ =>
      match pyGetItem jd (Json.str "api_url") with
      | Except.error (Err.keyError _) =>
          Except.error (Err.invalidDescriptor "api_url or api_token missing from json_description")
      | Except.error e => Except.error e
      | Except.ok _ => Except.ok jd

/-- The list comprehension at `src/main.py` lines 123-124:
`[{desired_output: data[desired_output]} for data in flat_list if desired_output in data]`,
with each element's membership test, extraction and dict construction
evaluated left to right so Python's first exception is the one reported. -/
def projectDesired (key : Json) : List Json → Except Err (List Json)
  | [] => Except.ok []
  | d :: rest =>
    match pyContains d key with
    | Except.error e => Except.error e
    | Except.ok false => projectDesired key rest
    | Except.ok true =>
      match pyGetItem d key with
      | Except.error e => Except.error e
      | Except.ok v =>
        match pyDictKey key with
        | Except.error e => Except.error e
        | Except.ok ks =>
          match projectDesired key rest with
          | Except.error e => Except.error e
          | Except.ok tail => Except.ok (Json.obj [(ks, v)] :: tail)

/-- Lines 117-127 of `src/main.py`, shaping an already decoded response `d`:
start from `output = json.dumps(result_data.json(), indent=4)`; when the
descriptor carries `desired_output`, either flatten-and-project a list
response and pretty-print the projection, or extract the raw value at the key
from any other response. -/
def shapeDecoded (jd : Json) (d : Json) : Except Err PyVal :=
  let output := PyVal.str (dumps d)
  match pyContains jd (Json.str "desired_output") with
  | Except.error e => Except.error e
  | Except.ok false => Except.ok output
  | Except.ok true =>
    match pyGetItem jd (Json.str "desired_output") with
    | Except.error e => Except.error e
    | Except.ok desired =>
      match d with
      | Json.arr lst =>
        match projectDesired desired (flatten_list lst) with
        | Except.error e => Except.error e
        | Except.ok outList => Except.ok (PyVal.str (dumps (Json.arr outList)))
      | _ =>
        match pyGetItem d desired with
        | Except.error e => Except.error e
        | Except.ok v => Except.ok (toPyVal v)

/-- Lines 112-127 of `src/main.py`: when the body is valid JSON (`some d`,
mirroring `is_valid_json`), re-load it and fail with the remote error if the
membership test `'error' in data` holds; then shape the `response.json()`
decode, which on a non-JSON body (`none`) raises its decode error. -/
def shapeOutput (jd : Json) (body : Option Json) : Except Err PyVal :=
  match body with
  | some d =>
    match pyContains d (Json.str "error") with
    | Except.error e => Except.error e
    | Except.ok true =>
      match pyGetItem d (Json.str "error") with
      | Except.error e => Except.error e
      | Except.ok v => Except.error (Err.remoteError v)
    | Except.ok false => shapeDecoded jd d
  | none => Except.error Err.jsonDecodeError

/-- `MyService.process` (`src/main.py` lines 77-132) on the parse results of
the `json_description` blob and of the remote response body.  The `Nat`
component counts the outbound `requests.post` calls made by
`image_to_text_query`: zero when descriptor validation fails, one otherwise.
On success the single return site wraps the shaped output as
`{"result": TaskData(data=output, type=APPLICATION_JSON)}`. -/
def process (blob body : Option Json) : Except Err ResultDict × Nat :=
  match parseDescriptor blob with
  | Except.error e => (Except.error e, 0)
  | Except.ok jd =>
    match shapeOutput jd body with
    | Except.error e => (Except.error e, 1)
    | Except.ok out =>
        (Except.ok ⟨⟨out, FieldDescriptionType.APPLICATION_JSON⟩⟩, 1)

/-- Modelled from the spec: the clean single-parse reimplementation described
in §9 of the specification — parse the response body once and branch on
success/failure (object with an `error` key becomes the remote error, any
other valid JSON is shaped as described, an unparsable body is the decode
failure), instead of the implemented validate-then-redecode scheme. -/
def processSingleParse (blob body : Option Json) : Except Err ResultDict × Nat :=
  match parseDescriptor blob with
  | Except.error e => (Except.error e, 0)
  | Except.ok jd =>
    match body with
    | none => (Except.error Err.jsonDecodeError, 1)
    | some d =>
      match pyContains d (Json.str "error") with
      | Except.error e => (Except.error e, 1)
      | Except.ok true =>
        match pyGetItem d (Json.str "error") with
        | Except.error e => (Except.error e, 1)
        | Except.ok v => (Except.error (Err.remoteError v), 1)
      | Except.ok false =>
        match shapeDecoded jd d with
        | Except.error e => (Except.error e, 1)
        | Except.ok out =>
            (Except.ok ⟨⟨out, FieldDescriptionType.APPLICATION_JSON⟩⟩, 1)

/-- The projection the specification describes for list responses: the ordered
sequence of `{key: element[key]}` for every flattened element containing `key`,
elements lacking the key silently dropped. -/
def projectObjs (k : String) : List Json → List Json
  | [] => []
  | Json.obj fs :: rest =>
      match lookupField fs k with
      | some v => Json.obj [(k, v)] :: projectObjs k rest
      | none => projectObjs k rest
  | _ :: rest => projectObjs k rest

/-- Whether a decoded value is a JSON object lacking key `k`. -/
def objLacksKey (k : String) (v : Json) : Bool :=
  match v with
  | Json.obj fs => !hasField fs k
  | _ => false

/-- Whether a `process` outcome is the descriptor-validation failure. -/
def resultInvalidDescriptor : Except Err ResultDict → Bool
  | Except.error (Err.invalidDescriptor _) => true
  | _ => false

/-- A well-formed descriptor requesting `desired_output = "k"`. -/
def descK : Json :=
  Json.obj [("api_token", Json.str "t"), ("api_url", Json.str "u"),
            ("desired_output", Json.str "k")]

/-- A well-formed descriptor with no `desired_output`. -/
def descPlain : Json :=
  Json.obj [("api_token", Json.str "t"), ("api_url", Json.str "u")]

/-- The descriptor blobs the specification calls invalid: not valid JSON at
all, or a JSON object lacking `api_token` or `api_url`. -/
def descriptorRejected : Option Json → Bool
  | none => true
  | some (Json.obj fs) => !(hasField fs "api_token" && hasField fs "api_url")
  | some _ => false

/-- Format check of the pretty-printer: a nested singleton renders exactly as
`json.dumps(..., indent=4)` renders it. -/
theorem dumps_nested_check :
    dumps (Json.arr [Json.obj [("k", Json.num 1)]]) =
      "[\n    \x7b\n        \"k\": 1\n    \x7d\n]" := rfl

/-- Dict membership agrees with dict lookup: `k in d` holds exactly when
`d[k]` would succeed. -/
theorem hasField_eq_isSome (fs : List (String × Json)) (k : String) :
    hasField fs k = (lookupField fs k).isSome := by
  induction fs with
  | nil => rfl
  | cons p rest ih =>
    obtain ⟨k1, v1⟩ := p
    cases h : k1 == k with
    | false => simp [hasField, lookupField, h, ih]
    | true => simp [hasField, lookupField, h]

/-- A present key has a value. -/
theorem lookupField_some_of_hasField (fs : List (String × Json)) (k : String)
    (h : hasField fs k = true) : ∃ v, lookupField fs k = some v := by
  rw [hasField_eq_isSome] at h
  cases hl : lookupField fs k with
  | none => rw [hl] at h; simp at h
  | some v => exact ⟨v, rfl⟩

/-- An absent key has no value. -/
theorem lookupField_none_of_hasField (fs : List (String × Json)) (k : String)
    (h : hasField fs k = false) : lookupField fs k = none := by
  rw [hasField_eq_isSome] at h
  cases hl : lookupField fs k with
  | none => rfl
  | some v => rw [hl] at h; simp at h

/-- A string never `==`-equals a decoded list. -/
theorem jeq_str_arr (s : String) (ys : List Json) :
    jeq (Json.str s) (Json.arr ys) = false := rfl

/-- A string never `==`-equals a decoded dict. -/
theorem jeq_str_obj (s : String) (fs : List (String × Json)) :
    jeq (Json.str s) (Json.obj fs) = false := rfl

/-- When every flattened element of `xs` is an object, no top-level element of
`xs` can equal a given string, so the `'error' in data` scan comes back
negative. -/
theorem any_jeq_str_eq_false (s : String) (xs : List Json)
    (h : allObjs (flatten_list xs) = true) :
    xs.any (fun e => jeq (Json.str s) e) = false := by
  induction xs with
  | nil => rfl
  | cons x rest ih =>
    cases x with
    | arr ys =>
      simp only [flatten_list, allObjs, List.all_append, Bool.and_eq_true] at h
      rw [List.any_cons, jeq_str_arr, Bool.false_or]
      exact ih h.2
    | obj fs2 =>
      simp only [flatten_list, allObjs, List.all_cons, Bool.and_eq_true] at h
      rw [List.any_cons, jeq_str_obj, Bool.false_or]
      exact ih h.2
    | null => simp [flatten_list, allObjs, isObj] at h
    | bool b => simp [flatten_list, allObjs, isObj] at h
    | num n => simp [flatten_list, allObjs, isObj] at h
    | str s2 => simp [flatten_list, allObjs, isObj] at h

/-- On a list of objects the comprehension of lines 123-124 never raises and
produces exactly the projection described by the specification. -/
theorem projectDesired_eq_projectObjs (k : String) (l : List Json)
    (h : allObjs l = true) :
    projectDesired (Json.str k) l = Except.ok (projectObjs k l) := by
  induction l with
  | nil => rfl
  | cons x rest ih =>
    cases x with
    | obj fs =>
      have hrest : allObjs rest = true := by
        simp only [allObjs, List.all_cons, Bool.and_eq_true] at h
        exact h.2
      have ihr := ih hrest
      cases hlf : lookupField fs k with
      | some v =>
        have hhf : hasField fs k = true := by rw [hasField_eq_isSome, hlf]; rfl
        simp [projectDesired, pyContains, hhf, pyGetItem, hlf, pyDictKey, ihr, projectObjs]
      | none =>
        have hhf : hasField fs k = false := by rw [hasField_eq_isSome, hlf]; rfl
        simp [projectDesired, pyContains, hhf, ihr, projectObjs, hlf]
    | null => simp [allObjs, isObj] at h
    | bool b => simp [allObjs, isObj] at h
    | num n => simp [allObjs, isObj] at h
    | str s => simp [allObjs, isObj] at h
    | arr ys => simp [allObjs, isObj] at h

/-- When every element is an object lacking the key, the specification's
projection is empty. -/
theorem projectObjs_eq_nil (k : String) (l : List Json)
    (h : l.all (objLacksKey k) = true) :
    projectObjs k l = [] := by
  induction l with
  | nil => rfl
  | cons x rest ih =>
    simp only [List.all_cons, Bool.and_eq_true] at h
    cases x with
    | obj fs =>
      have hf : hasField fs k = false := by
        have h1 := h.1
        simp [objLacksKey] at h1
        exact h1
      simp [projectObjs, lookupField_none_of_hasField fs k hf, ih h.2]
    | null => simp [objLacksKey] at h
    | bool b => simp [objLacksKey] at h
    | num n => simp [objLacksKey] at h
    | str s => simp [objLacksKey] at h
    | arr ys => simp [objLacksKey] at h

/-- Descriptor validation succeeds on an object carrying both credentials. -/
theorem parseDescriptor_obj_ok (fs : List (String × Json))
    (htok : hasField fs "api_token" = true) (hurl : hasField fs "api_url" = true) :
    parseDescriptor (some (Json.obj fs)) = Except.ok (Json.obj fs) := by
  obtain ⟨vt, hvt⟩ := lookupField_some_of_hasField _ _ htok
  obtain ⟨vu, hvu⟩ := lookupField_some_of_hasField _ _ hurl
  simp [parseDescriptor, pyGetItem, hvt, hvu]

/-- A list response that fails the `'error' in data` scan flows on to shaping. -/
theorem shapeOutput_arr (jd : Json) (xs : List Json)
    (hscan : xs.any (fun e => jeq (Json.str "error") e) = false) :
    shapeOutput jd (some (Json.arr xs)) = shapeDecoded jd (Json.arr xs) := by
  simp [shapeOutput, pyContains, hscan]

/-- An object response without an `error` key flows on to shaping. -/
theorem shapeOutput_obj (jd : Json) (rs : List (String × Json))
    (hnoerr : hasField rs "error" = false) :
    shapeOutput jd (some (Json.obj rs)) = shapeDecoded jd (Json.obj rs) := by
  simp [shapeOutput, pyContains, hnoerr]

/-- Without `desired_output` the shaped value is the full pretty-printed dump. -/
theorem shapeDecoded_no_desired (fs : List (String × Json)) (d : Json)
    (hnod : hasField fs "desired_output" = false) :
    shapeDecoded (Json.obj fs) d = Except.ok (PyVal.str (dumps d)) := by
  simp [shapeDecoded, pyContains, hnod]

/-- With `desired_output` a list response is flattened and projected. -/
theorem shapeDecoded_desired_arr (fs : List (String × Json)) (k : String) (lst : List Json)
    (hdes : lookupField fs "desired_output" = some (Json.str k))
    (hobjs : allObjs (flatten_list lst) = true) :
    shapeDecoded (Json.obj fs) (Json.arr lst) =
      Except.ok (PyVal.str (dumps (Json.arr (projectObjs k (flatten_list lst))))) := by
  have hhf : hasField fs "desired_output" = true := by rw [hasField_eq_isSome, hdes]; rfl
  simp [shapeDecoded, pyContains, hhf, pyGetItem, hdes,
        projectDesired_eq_projectObjs k _ hobjs]

/-- C2: for every valid descriptor without `desired_output` and every remote
response decoding to a JSON object without the key `error`, `process` returns
the 4-space-indent pretty-printed serialization of that exact decoded object
(one network call made). -/
theorem claim2_full_dump (fs rs : List (String × Json))
    (htok : hasField fs "api_token" = true) (hurl : hasField fs "api_url" = true)
    (hnod : hasField fs "desired_output" = false)
    (hnoerr : hasField rs "error" = false) :
    process (some (Json.obj fs)) (some (Json.obj rs)) =
      (Except.ok ⟨⟨PyVal.str (dumps (Json.obj rs)),
        FieldDescriptionType.APPLICATION_JSON⟩⟩, 1) := by
  have h1 := parseDescriptor_obj_ok fs htok hurl
  have h2 := shapeOutput_obj (Json.obj fs) rs hnoerr
  have h3 := shapeDecoded_no_desired fs (Json.obj rs) hnod
  simp [process, h1, h2, h3]

/-- Witness for C2 at the descriptor `descPlain` and the response
`{"a": 1}`. -/
theorem claim2_witness :
    hasField [("api_token", Json.str "t"), ("api_url", Json.str "u")] "api_token" = true ∧
    hasField [("api_token", Json.str "t"), ("api_url", Json.str "u")] "api_url" = true ∧
    hasField [("api_token", Json.str "t"), ("api_url", Json.str "u")] "desired_output" = false ∧
    hasField [("a", Json.num 1)] "error" = false ∧
    process (some descPlain) (some (Json.obj [("a", Json.num 1)])) =
      (Except.ok ⟨⟨PyVal.str (dumps (Json.obj [("a", Json.num 1)])),
        FieldDescriptionType.APPLICATION_JSON⟩⟩, 1) :=
  ⟨rfl, rfl, rfl, rfl, claim2_full_dump _ _ rfl rfl rfl rfl⟩

/-- C3: with `desired_output` present and a single-object response containing
that key, `process` returns the raw value stored at the key, not re-wrapped
and not re-serialized. -/
theorem claim3_raw_value (fs rs : List (String × Json)) (k : String) (v : Json)
    (htok : hasField fs "api_token" = true) (hurl : hasField fs "api_url" = true)
    (hdes : lookupField fs "desired_output" = some (Json.str k))
    (hnoerr : hasField rs "error" = false)
    (hv : lookupField rs k = some v) :
    process (some (Json.obj fs)) (some (Json.obj rs)) =
      (Except.ok ⟨⟨toPyVal v, FieldDescriptionType.APPLICATION_JSON⟩⟩, 1) := by
  have h1 := parseDescriptor_obj_ok fs htok hurl
  have h2 := shapeOutput_obj (Json.obj fs) rs hnoerr
  have hhf : hasField fs "desired_output" = true := by rw [hasField_eq_isSome, hdes]; rfl
  simp [process, h1, h2, shapeDecoded, pyContains, hhf, pyGetItem, hdes, hv]

/-- Witness for C3 at the spec's example: response
`{"generated_text": "a cat"}` with `desired_output = "generated_text"`
yields the bare Python string `a cat`, not the JSON text `"a cat"`. -/
theorem claim3_witness :
    lookupField [("api_token", Json.str "t"), ("api_url", Json.str "u"),
      ("desired_output", Json.str "generated_text")] "desired_output" =
      some (Json.str "generated_text") ∧
    lookupField [("generated_text", Json.str "a cat")] "generated_text" =
      some (Json.str "a cat") ∧
    process
      (some (Json.obj [("api_token", Json.str "t"), ("api_url", Json.str "u"),
        ("desired_output", Json.str "generated_text")]))
      (some (Json.obj [("generated_text", Json.str "a cat")])) =
      (Except.ok ⟨⟨PyVal.str "a cat", FieldDescriptionType.APPLICATION_JSON⟩⟩, 1) :=
  ⟨rfl, rfl,
    claim3_raw_value
      [("api_token", Json.str "t"), ("api_url", Json.str "u"),
        ("desired_output", Json.str "generated_text")]
      [("generated_text", Json.str "a cat")] "generated_text" (Json.str "a cat")
      rfl rfl rfl rfl rfl⟩

/-- C4: whenever the descriptor validates and the response decodes to an
object with an `error` key, `process` fails with the remote error carrying
that key's value, and no shaped output is produced. -/
theorem claim4_remote_error (blob : Option Json) (jd : Json)
    (rs : List (String × Json)) (v : Json)
    (hdesc : parseDescriptor blob = Except.ok jd)
    (herr : lookupField rs "error" = some v) :
    process blob (some (Json.obj rs)) = (Except.error (Err.remoteError v), 1) := by
  have hhf : hasField rs "error" = true := by rw [hasField_eq_isSome, herr]; rfl
  simp [process, hdesc, shapeOutput, pyContains, hhf, pyGetItem, herr]

/-- Witness for C4 at the response `{"error": "model loading"}`. -/
theorem claim4_witness :
    parseDescriptor (some descPlain) = Except.ok descPlain ∧
    lookupField [("error", Json.str "model loading")] "error" =
      some (Json.str "model loading") ∧
    process (some descPlain) (some (Json.obj [("error", Json.str "model loading")])) =
      (Except.error (Err.remoteError (Json.str "model loading")), 1) :=
  ⟨rfl, rfl, claim4_remote_error _ _ _ _ rfl rfl⟩

/-- C7: with `desired_output` present and a single-object response lacking
that key, `process` fails with the propagated key-lookup failure (the spec's
`MissingFieldError`). -/
theorem claim7_missing_field (fs rs : List (String × Json)) (k : String)
    (htok : hasField fs "api_token" = true) (hurl : hasField fs "api_url" = true)
    (hdes : lookupField fs "desired_output" = some (Json.str k))
    (hnoerr : hasField rs "error" = false)
    (hmiss : hasField rs k = false) :
    process (some (Json.obj fs)) (some (Json.obj rs)) =
      (Except.error (Err.keyError (Json.str k)), 1) := by
  have h1 := parseDescriptor_obj_ok fs htok hurl
  have h2 := shapeOutput_obj (Json.obj fs) rs hnoerr
  have hhf : hasField fs "desired_output" = true := by rw [hasField_eq_isSome, hdes]; rfl
  have hnone := lookupField_none_of_hasField rs k hmiss
  simp [process, h1, h2, shapeDecoded, pyContains, hhf, pyGetItem, hdes, hnone]

/-- Witness for C7: requesting `"k"` from the response `{"other": 1}` fails
with the key lookup error. -/
theorem claim7_witness :
    lookupField [("api_token", Json.str "t"), ("api_url", Json.str "u"),
      ("desired_output", Json.str "k")] "desired_output" = some (Json.str "k") ∧
    hasField [("other", Json.num 1)] "k" = false ∧
    process (some descK) (some (Json.obj [("other", Json.num 1)])) =
      (Except.error (Err.keyError (Json.str "k")), 1) :=
  ⟨rfl, rfl,
    claim7_missing_field
      [("api_token", Json.str "t"), ("api_url", Json.str "u"),
        ("desired_output", Json.str "k")]
      [("other", Json.num 1)] "k" rfl rfl rfl rfl rfl⟩

/-- C1 as stated is false: with `desired_output = "k"` and the list response
`[7]`, the flattened element `7` lacks the key, yet instead of being silently
dropped it makes the membership test `"k" in 7` raise `TypeError`, so the
promised pretty-printed projection (the empty one) is never returned. -/
theorem claim1_counterexample :
    process (some descK) (some (Json.arr [Json.num 7])) =
      (Except.error (Err.typeError "argument is not iterable"), 1) ∧
    process (some descK) (some (Json.arr [Json.num 7])) ≠
      (Except.ok ⟨⟨PyVal.str (dumps (Json.arr (projectObjs "k" (flatten_list [Json.num 7])))),
        FieldDescriptionType.APPLICATION_JSON⟩⟩, 1) := by
  have he : process (some descK) (some (Json.arr [Json.num 7])) =
      (Except.error (Err.typeError "argument is not iterable"), 1) := rfl
  refine ⟨he, ?_⟩
  rw [he]
  intro h
  exact Except.noConfusion (congrArg Prod.fst h)

/-- C1 amended: when additionally every flattened element is a JSON object,
`process` flattens one level and returns the pretty-printed ordered list of
`{desired_output: element[desired_output]}` for exactly the flattened elements
containing the key, in input order, elements lacking the key silently
dropped. -/
theorem claim1_amended_projection (fs : List (String × Json)) (k : String)
    (xs : List Json)
    (htok : hasField fs "api_token" = true) (hurl : hasField fs "api_url" = true)
    (hdes : lookupField fs "desired_output" = some (Json.str k))
    (hobjs : allObjs (flatten_list xs) = true) :
    process (some (Json.obj fs)) (some (Json.arr xs)) =
      (Except.ok ⟨⟨PyVal.str (dumps (Json.arr (projectObjs k (flatten_list xs)))),
        FieldDescriptionType.APPLICATION_JSON⟩⟩, 1) := by
  have h1 := parseDescriptor_obj_ok fs htok hurl
  have h2 := shapeOutput_arr (Json.obj fs) xs (any_jeq_str_eq_false "error" xs hobjs)
  have h3 := shapeDecoded_desired_arr fs k xs hdes hobjs
  simp [process, h1, h2, h3]

/-- Witness for amended C1 at the nested response
`[[{"k": 1}], {"k": 2}, {"other": 3}]`: the projection keeps `{"k": 1}` and
`{"k": 2}`, in order, and drops the keyless object. -/
theorem claim1_witness :
    allObjs (flatten_list [Json.arr [Json.obj [("k", Json.num 1)]],
      Json.obj [("k", Json.num 2)], Json.obj [("other", Json.num 3)]]) = true ∧
    projectObjs "k" (flatten_list [Json.arr [Json.obj [("k", Json.num 1)]],
      Json.obj [("k", Json.num 2)], Json.obj [("other", Json.num 3)]]) =
      [Json.obj [("k", Json.num 1)], Json.obj [("k", Json.num 2)]] ∧
    process (some descK) (some (Json.arr [Json.arr [Json.obj [("k", Json.num 1)]],
      Json.obj [("k", Json.num 2)], Json.obj [("other", Json.num 3)]])) =
      (Except.ok ⟨⟨PyVal.str (dumps (Json.arr (projectObjs "k"
        (flatten_list [Json.arr [Json.obj [("k", Json.num 1)]],
          Json.obj [("k", Json.num 2)], Json.obj [("other", Json.num 3)]])))),
        FieldDescriptionType.APPLICATION_JSON⟩⟩, 1) :=
  ⟨rfl, rfl,
    claim1_amended_projection
      [("api_token", Json.str "t"), ("api_url", Json.str "u"),
        ("desired_output", Json.str "k")] "k"
      [Json.arr [Json.obj [("k", Json.num 1)]], Json.obj [("k", Json.num 2)],
        Json.obj [("other", Json.num 3)]]
      rfl rfl rfl rfl⟩

/-- C5 as stated is false: with `desired_output = "k"` and the list response
`[true]`, no flattened element contains the key, yet instead of the promised
empty JSON array the membership test `"k" in True` raises `TypeError`. -/
theorem claim5_counterexample :
    process (some descK) (some (Json.arr [Json.bool true])) =
      (Except.error (Err.typeError "argument is not iterable"), 1) ∧
    process (some descK) (some (Json.arr [Json.bool true])) ≠
      (Except.ok ⟨⟨PyVal.str "[]", FieldDescriptionType.APPLICATION_JSON⟩⟩, 1) := by
  have he : process (some descK) (some (Json.arr [Json.bool true])) =
      (Except.error (Err.typeError "argument is not iterable"), 1) := rfl
  refine ⟨he, ?_⟩
  rw [he]
  intro h
  exact Except.noConfusion (congrArg Prod.fst h)

/-- The empty list pretty-prints as the empty JSON array. -/
theorem dumps_arr_nil : dumps (Json.arr []) = "[]" := rfl

/-- C5 amended: when additionally every flattened element is a JSON object and
none contains the key (including the empty flattened sequence), `process`
succeeds with the empty JSON array rather than failing. -/
theorem claim5_amended_empty_array (fs : List (String × Json)) (k : String)
    (xs : List Json)
    (htok : hasField fs "api_token" = true) (hurl : hasField fs "api_url" = true)
    (hdes : lookupField fs "desired_output" = some (Json.str k))
    (hobjs : allObjs (flatten_list xs) = true)
    (hnone : (flatten_list xs).all (objLacksKey k) = true) :
    process (some (Json.obj fs)) (some (Json.arr xs)) =
      (Except.ok ⟨⟨PyVal.str "[]", FieldDescriptionType.APPLICATION_JSON⟩⟩, 1) := by
  have h1 := parseDescriptor_obj_ok fs htok hurl
  have h2 := shapeOutput_arr (Json.obj fs) xs (any_jeq_str_eq_false "error" xs hobjs)
  have h3 := shapeDecoded_desired_arr fs k xs hdes hobjs
  rw [projectObjs_eq_nil k _ hnone, dumps_arr_nil] at h3
  simp [process, h1, h2, h3]

/-- Witness for amended C5 at the response `[{"other": 1}]` with
`desired_output = "k"`: the result is the empty JSON array, not an error. -/
theorem claim5_witness :
    allObjs (flatten_list [Json.obj [("other", Json.num 1)]]) = true ∧
    (flatten_list [Json.obj [("other", Json.num 1)]]).all (objLacksKey "k") = true ∧
    process (some descK) (some (Json.arr [Json.obj [("other", Json.num 1)]])) =
      (Except.ok ⟨⟨PyVal.str "[]", FieldDescriptionType.APPLICATION_JSON⟩⟩, 1) :=
  ⟨rfl, rfl,
    claim5_amended_empty_array
      [("api_token", Json.str "t"), ("api_url", Json.str "u"),
        ("desired_output", Json.str "k")] "k"
      [Json.obj [("other", Json.num 1)]]
      rfl rfl rfl rfl rfl⟩

/-- C6 as stated is false on one family of inputs: the blob `[]` is valid JSON
and lacks `api_token`/`api_url`, and `process` does fail before any network
call (zero calls made), but with a propagated `TypeError` from subscripting a
list with a string key, not with the descriptive `InvalidDescriptorError`. -/
theorem claim6_counterexample :
    (process (some (Json.arr [])) (some (Json.obj []))).1 =
      Except.error (Err.typeError "list indices must be integers") ∧
    resultInvalidDescriptor (process (some (Json.arr [])) (some (Json.obj []))).1 = false ∧
    (process (some (Json.arr [])) (some (Json.obj []))).2 = 0 :=
  ⟨rfl, rfl, rfl⟩

/-- C6 amended: for every blob that is not valid JSON, or parses to a JSON
object lacking `api_token` or `api_url`, `process` fails with the descriptive
`InvalidDescriptorError` and makes no network call.  (Blobs parsing to
non-object JSON also fail before any network call, but with a propagated
`TypeError` instead.) -/
theorem claim6_amended_invalid_descriptor (blob body : Option Json)
    (h : descriptorRejected blob = true) :
    resultInvalidDescriptor (process blob body).1 = true ∧
    (process blob body).2 = 0 := by
  cases blob with
  | none => exact ⟨rfl, rfl⟩
  | some jd =>
    cases jd with
    | obj fs =>
      cases htok : hasField fs "api_token" with
      | false =>
        have hnone := lookupField_none_of_hasField fs "api_token" htok
        simp [process, parseDescriptor, pyGetItem, hnone, resultInvalidDescriptor]
      | true =>
        have hurl : hasField fs "api_url" = false := by
          simp [descriptorRejected, htok] at h
          exact h
        obtain ⟨vt, hvt⟩ := lookupField_some_of_hasField fs _ htok
        have hnone := lookupField_none_of_hasField fs "api_url" hurl
        simp [process, parseDescriptor, pyGetItem, hvt, hnone, resultInvalidDescriptor]
    | null => simp [descriptorRejected] at h
    | bool b => simp [descriptorRejected] at h
    | num n => simp [descriptorRejected] at h
    | str s => simp [descriptorRejected] at h
    | arr xs => simp [descriptorRejected] at h

/-- Witness for amended C6: a descriptor object with only `api_url` is
rejected with the descriptive failure and zero network calls. -/
theorem claim6_witness :
    descriptorRejected (some (Json.obj [("api_url", Json.str "u")])) = true ∧
    resultInvalidDescriptor
      (process (some (Json.obj [("api_url", Json.str "u")])) (some (Json.obj []))).1 = true ∧
    (process (some (Json.obj [("api_url", Json.str "u")])) (some (Json.obj []))).2 = 0 :=
  ⟨rfl,
    (claim6_amended_invalid_descriptor
      (some (Json.obj [("api_url", Json.str "u")])) (some (Json.obj [])) rfl).1,
    (claim6_amended_invalid_descriptor
      (some (Json.obj [("api_url", Json.str "u")])) (some (Json.obj [])) rfl).2⟩

/-- C8: the implemented validate-then-redecode pipeline and the single-parse
reimplementation produce the same outcome (same failure or same shaped
output, and the same number of network calls) on every descriptor blob and
every response body. -/
theorem claim8_single_parse_equiv (blob body : Option Json) :
    process blob body = processSingleParse blob body := by
  cases hp : parseDescriptor blob with
  | error e => simp [process, processSingleParse, hp]
  | ok jd =>
    cases body with
    | none => simp [process, processSingleParse, hp, shapeOutput]
    | some d =>
      cases hc : pyContains d (Json.str "error") with
      | error e => simp [process, processSingleParse, hp, shapeOutput, hc]
      | ok b =>
        cases b with
        | true =>
          cases hg : pyGetItem d (Json.str "error") with
          | error e => simp [process, processSingleParse, hp, shapeOutput, hc, hg]
          | ok v => simp [process, processSingleParse, hp, shapeOutput, hc, hg]
        | false =>
          cases hs : shapeDecoded jd d with
          | error e => simp [process, processSingleParse, hp, shapeOutput, hc, hs]
          | ok out => simp [process, processSingleParse, hp, shapeOutput, hc, hs]

/-- C9: every successful invocation tags its result with the JSON content
type, whichever shaping path produced the carried value. -/
theorem claim9_content_type (blob body : Option Json) (r : ResultDict) (n : Nat)
    (h : process blob body = (Except.ok r, n)) :
    r.result.type = FieldDescriptionType.APPLICATION_JSON := by
  cases hp : parseDescriptor blob with
  | error e =>
    have hv : process blob body = (Except.error e, 0) := by simp [process, hp]
    rw [hv] at h
    simp at h
  | ok jd =>
    cases hs : shapeOutput jd body with
    | error e =>
      have hv : process blob body = (Except.error e, 1) := by simp [process, hp, hs]
      rw [hv] at h
      simp at h
    | ok out =>
      have hv : process blob body =
          (Except.ok ⟨⟨out, FieldDescriptionType.APPLICATION_JSON⟩⟩, 1) := by
        simp [process, hp, hs]
      rw [hv] at h
      have h1 : (⟨⟨out, FieldDescriptionType.APPLICATION_JSON⟩⟩ : ResultDict) = r :=
        Except.ok.inj (congrArg Prod.fst h)
      rw [← h1]

/-- Witness for C9 on the raw-extraction path, where the carried value is the
bare string `a cat` (not itself valid JSON text): the tag is still
`APPLICATION_JSON`. -/
theorem claim9_witness :
    process (some (Json.obj [("api_token", Json.str "t"), ("api_url", Json.str "u"),
      ("desired_output", Json.str "generated_text")]))
      (some (Json.obj [("generated_text", Json.str "a cat")])) =
      (Except.ok ⟨⟨PyVal.str "a cat", FieldDescriptionType.APPLICATION_JSON⟩⟩, 1) ∧
    (⟨⟨PyVal.str "a cat", FieldDescriptionType.APPLICATION_JSON⟩⟩ : ResultDict).result.type =
      FieldDescriptionType.APPLICATION_JSON :=
  ⟨rfl,
    claim9_content_type
      (some (Json.obj [("api_token", Json.str "t"), ("api_url", Json.str "u"),
        ("desired_output", Json.str "generated_text")]))
      (some (Json.obj [("generated_text", Json.str "a cat")]))
      ⟨⟨PyVal.str "a cat", FieldDescriptionType.APPLICATION_JSON⟩⟩ 1 rfl⟩

/-- C10: the `'error' in data` test is list membership on array responses, so
an array containing the string `"error"` passes the test and the follow-up
`data['error']` indexes the list with a string key, raising `TypeError`
instead of shaping the response. -/
theorem claim10_list_error_membership (blob : Option Json) (jd : Json)
    (xs : List Json)
    (hdesc : parseDescriptor blob = Except.ok jd)
    (hmem : xs.any (fun e => jeq (Json.str "error") e) = true) :
    process blob (some (Json.arr xs)) =
      (Except.error (Err.typeError "list indices must be integers"), 1) := by
  simp [process, hdesc, shapeOutput, pyContains, hmem, pyGetItem]

/-- Witness for C10 at the response `["error", {}]`. -/
theorem claim10_witness :
    parseDescriptor (some descPlain) = Except.ok descPlain ∧
    ([Json.str "error", Json.obj []].any (fun e => jeq (Json.str "error") e)) = true ∧
    process (some descPlain) (some (Json.arr [Json.str "error", Json.obj []])) =
      (Except.error (Err.typeError "list indices must be integers"), 1) :=
  ⟨rfl, rfl,
    claim10_list_error_membership (some descPlain) descPlain
      [Json.str "error", Json.obj []] rfl rfl⟩
